import Mathlib

/-!
Verification of the defi-simulator simulation engine.

The source (src/services/simulation-engine/src/) is embedded shallowly:
Python floats become exact rationals (`ℚ`), Python ints become `ℤ`, and
Python's built-in `round(x, 2)` becomes rounding of a rational to two
decimal places with ties going to the even integer (banker's rounding,
which is what Python's `round` implements).
-/

namespace DefiSim

/-- Token from src/models.py: identifies the staked asset. -/
structure Token where
  name : String
deriving DecidableEq, Repr

/-- StakingPool from src/models.py: `id`, an embedded `token`, a display
`name`, and `apy` given as a percentage value (25 means 25%). -/
structure StakingPool where
  id : ℤ
  token : Token
  name : String
  apy : ℚ
deriving DecidableEq, Repr

/-- Round a rational to the nearest integer with ties to even, the rounding
rule of Python's built-in `round`. -/
def roundHalfEven (q : ℚ) : ℤ :=
  if q - ⌊q⌋ < 1/2 then ⌊q⌋
  else if 1/2 < q - ⌊q⌋ then ⌊q⌋ + 1
  else if ⌊q⌋ % 2 = 0 then ⌊q⌋ else ⌊q⌋ + 1

/-- Round to two decimal places, embedding `round(x, 2)` from the source. -/
def round2 (x : ℚ) : ℚ := (roundHalfEven (x * 100) : ℚ) / 100

/-- Result dictionary returned by `run_staking_simulation` in
src/simulation.py, with its five keys as fields. -/
structure SimulationResult where
  pool_id : ℤ
  pool_name : String
  amount_staked : ℚ
  duration_days : ℤ
  earnings : ℚ
deriving DecidableEq, Repr

/-- run_staking_simulation from src/simulation.py: daily rate is
`(pool.apy / 100) / 365`, earnings are `amount_staked * daily_rate *
duration_days` rounded to two decimal places, and the result echoes the
pool's id and name and the inputs. -/
def run_staking_simulation (pool : StakingPool) (amount_staked : ℚ)
    (duration_days : ℤ) : SimulationResult :=
  let daily_rate := (pool.apy / 100) / 365
  let earnings := amount_staked * daily_rate * (duration_days : ℚ)
  { pool_id := pool.id
    pool_name := pool.name
    amount_staked := amount_staked
    duration_days := duration_days
    earnings := round2 earnings }

/-- SimulationRequest from src/simulation_controller.py. -/
structure SimulationRequest where
  pool_id : ℤ
  amount_staked : ℚ
  duration_days : ℤ
deriving DecidableEq, Repr

/-- eth_pool from src/simulation_controller.py: the single hardcoded pool. -/
def eth_pool : StakingPool :=
  { id := 1
    token := { name := "ETH" }
    name := "ETH Staking Pool"
    apy := 25 }

/-- simulate_staking_yield from src/simulation_controller.py: always runs
the simulation against `eth_pool`, ignoring `request.pool_id`. -/
def simulate_staking_yield (request : SimulationRequest) : SimulationResult :=
  run_staking_simulation eth_pool request.amount_staked request.duration_days

/-- JSON scalar values that can appear in a request body field. -/
inductive Json where
  | null : Json
  | bool (b : Bool) : Json
  | int (i : ℤ) : Json
  | num (q : ℚ) : Json
  | str (s : String) : Json
deriving DecidableEq, Repr

/-- Raw request body before schema validation: each declared field of
SimulationRequest is either absent or holds some JSON value. -/
structure RawBody where
  pool_id : Option Json
  amount_staked : Option Json
  duration_days : Option Json
deriving DecidableEq, Repr

/-- Modelled from the spec: the framework boundary's structural validation
of an integer field (field presence and type), which is performed by the
serving framework and is not part of src/. A present JSON integer
validates; a missing or mistyped field fails. -/
def validateIntField : Option Json → Option ℤ
  | some (Json.int i) => some i
  | _ => none

/-- Modelled from the spec: the framework boundary's structural validation
of a number field; a JSON integer coerces to a number, anything else
mistyped or missing fails. -/
def validateFloatField : Option Json → Option ℚ
  | some (Json.int i) => some (i : ℚ)
  | some (Json.num q) => some q
  | _ => none

/-- Modelled from the spec: structural schema validation of the request
body against SimulationRequest (all three fields present with the declared
types); performed at the framework boundary, not in src/. -/
def validateRequest (b : RawBody) : Option SimulationRequest :=
  match validateIntField b.pool_id, validateFloatField b.amount_staked,
      validateIntField b.duration_days with
  | some p, some a, some d =>
      some { pool_id := p, amount_staked := a, duration_days := d }
  | _, _, _ => none

/-- HTTP outcome of the endpoint: a 200 result body, or the framework's
422 structural-validation error. -/
inductive HttpResponse where
  | ok (body : SimulationResult) : HttpResponse
  | validationError : HttpResponse
deriving DecidableEq, Repr

/-- POST /api/simulate/staking end to end: the framework validates the
body structurally (modelled from the spec) and on success the handler
`simulate_staking_yield` from src/simulation_controller.py runs. -/
def handle_request (b : RawBody) : HttpResponse :=
  match validateRequest b with
  | some req => HttpResponse.ok (simulate_staking_yield req)
  | none => HttpResponse.validationError

/-- Serialize a structurally valid request back into a raw body. -/
def toBody (req : SimulationRequest) : RawBody :=
  { pool_id := some (Json.int req.pool_id)
    amount_staked := some (Json.num req.amount_staked)
    duration_days := some (Json.int req.duration_days) }

/-- Process state: the single StakingPool instance constructed at process
start and held for the process lifetime. -/
structure ProcState where
  pool : StakingPool
deriving DecidableEq, Repr

/-- Initial process state: `eth_pool` is constructed at module load. -/
def initState : ProcState := { pool := eth_pool }

/-- One handler call as an explicit state transformer: it reads the pool
from the process state, computes the result, and returns the state it was
given (the source mutates nothing). -/
def handleStep (s : ProcState) (req : SimulationRequest) :
    SimulationResult × ProcState :=
  (run_staking_simulation s.pool req.amount_staked req.duration_days, s)

/-- Any number of successive handler calls, threading the process state. -/
def runAll (s : ProcState) : List SimulationRequest →
    List SimulationResult × ProcState
  | [] => ([], s)
  | req :: rest =>
      let step := handleStep s req
      let tail := runAll step.2 rest
      (step.1 :: tail.1, tail.2)

lemma roundHalfEven_nonpos {q : ℚ} (hq : q ≤ 0) : roundHalfEven q ≤ 0 := by
  have hf : ⌊q⌋ ≤ 0 := by
    have h : (⌊q⌋ : ℚ) ≤ 0 := le_trans (Int.floor_le q) hq
    exact_mod_cast h
  unfold roundHalfEven
  split_ifs with h1 h2 h3
  · exact hf
  · have hge : (1 : ℚ)/2 ≤ q - ⌊q⌋ := not_lt.mp h1
    have hlt : (⌊q⌋ : ℚ) < 0 := by linarith
    have : ⌊q⌋ < 0 := by exact_mod_cast hlt
    omega
  · exact hf
  · have hge : (1 : ℚ)/2 ≤ q - ⌊q⌋ := not_lt.mp h1
    have hlt : (⌊q⌋ : ℚ) < 0 := by linarith
    have : ⌊q⌋ < 0 := by exact_mod_cast hlt
    omega

lemma round2_nonpos {x : ℚ} (hx : x ≤ 0) : round2 x ≤ 0 := by
  have h : roundHalfEven (x * 100) ≤ 0 := roundHalfEven_nonpos (by nlinarith)
  have hc : ((roundHalfEven (x * 100) : ℤ) : ℚ) ≤ 0 := by exact_mod_cast h
  have h100 : (0 : ℚ) < 100 := by norm_num
  unfold round2
  have := (div_le_div_iff_of_pos_right h100).mpr hc
  simpa using this

/-- C1: for every pool, amount and duration, `run_staking_simulation`
echoes the pool's id and name and the inputs, and its earnings equal
`round2 (amount_staked * (apy/100/365) * duration_days)`. -/
theorem run_staking_simulation_correct (pool : StakingPool)
    (amount_staked : ℚ) (duration_days : ℤ) :
    (run_staking_simulation pool amount_staked duration_days).pool_id = pool.id ∧
    (run_staking_simulation pool amount_staked duration_days).pool_name = pool.name ∧
    (run_staking_simulation pool amount_staked duration_days).amount_staked = amount_staked ∧
    (run_staking_simulation pool amount_staked duration_days).duration_days = duration_days ∧
    (run_staking_simulation pool amount_staked duration_days).earnings =
      round2 (amount_staked * (pool.apy / 100 / 365) * (duration_days : ℚ)) :=
  ⟨rfl, rfl, rfl, rfl, rfl⟩

/-- C2: the handler ignores `pool_id`: any two structurally valid requests
that agree on amount and duration both succeed and produce identical
responses, always computed from the hardcoded ETH pool. -/
theorem pool_id_independence (r1 r2 : SimulationRequest)
    (ha : r1.amount_staked = r2.amount_staked)
    (hd : r1.duration_days = r2.duration_days) :
    handle_request (toBody r1) = HttpResponse.ok (simulate_staking_yield r1) ∧
    handle_request (toBody r2) = HttpResponse.ok (simulate_staking_yield r2) ∧
    simulate_staking_yield r1 = simulate_staking_yield r2 := by
  refine ⟨rfl, rfl, ?_⟩
  simp [simulate_staking_yield, ha, hd]

/-- Witness for C2 at pool_id 1 versus the nonexistent pool_id 999. -/
theorem pool_id_independence_witness :
    handle_request (toBody { pool_id := 1, amount_staked := 1000, duration_days := 30 }) =
      HttpResponse.ok (simulate_staking_yield { pool_id := 1, amount_staked := 1000, duration_days := 30 }) ∧
    handle_request (toBody { pool_id := 999, amount_staked := 1000, duration_days := 30 }) =
      HttpResponse.ok (simulate_staking_yield { pool_id := 999, amount_staked := 1000, duration_days := 30 }) ∧
    simulate_staking_yield { pool_id := 1, amount_staked := 1000, duration_days := 30 } =
      simulate_staking_yield { pool_id := 999, amount_staked := 1000, duration_days := 30 } :=
  pool_id_independence _ _ rfl rfl

/-- C3: the endpoint produces the 422 validation error exactly when the
body fails structural validation, and every structurally valid request —
negative or zero values included — is computed through to a 200 result
with no domain error path. -/
theorem endpoint_error_iff_invalid (b : RawBody) :
    (handle_request b = HttpResponse.validationError ↔ validateRequest b = none) ∧
    (∀ req : SimulationRequest, validateRequest b = some req →
      handle_request b = HttpResponse.ok
        (run_staking_simulation eth_pool req.amount_staked req.duration_days)) := by
  constructor
  · cases h : validateRequest b with
    | none => simp [handle_request, h]
    | some req => simp [handle_request, h]
  · intro req hreq
    simp [handle_request, hreq, simulate_staking_yield]

/-- Witness for C3: a body with negative amount and zero duration passes
validation and is computed through to a 200 result. -/
theorem endpoint_error_iff_invalid_witness :
    validateRequest { pool_id := some (Json.int 1),
                      amount_staked := some (Json.num (-5)),
                      duration_days := some (Json.int 0) } =
      some { pool_id := 1, amount_staked := -5, duration_days := 0 } ∧
    handle_request { pool_id := some (Json.int 1),
                     amount_staked := some (Json.num (-5)),
                     duration_days := some (Json.int 0) } =
      HttpResponse.ok (run_staking_simulation eth_pool (-5) 0) :=
  ⟨rfl, (endpoint_error_iff_invalid _).2 { pool_id := 1, amount_staked := -5, duration_days := 0 } rfl⟩

/-- C4: zero annihilates the earnings: amount 0 gives earnings 0 for every
pool and duration, and duration 0 gives earnings 0 for every pool and
amount. -/
theorem earnings_zero_annihilation (pool : StakingPool)
    (amount_staked : ℚ) (duration_days : ℤ) :
    (run_staking_simulation pool 0 duration_days).earnings = 0 ∧
    (run_staking_simulation pool amount_staked 0).earnings = 0 := by
  have h0 : round2 0 = 0 := by norm_num [round2, roundHalfEven]
  constructor
  · simp [run_staking_simulation, h0]
  · simp [run_staking_simulation, h0]

/-- C5: the handler is deterministic and idempotent: a call leaves the
process state unchanged, so a second call with the same request returns
the identical response. -/
theorem handler_deterministic_idempotent (s : ProcState) (req : SimulationRequest) :
    (handleStep s req).2 = s ∧
    handleStep ((handleStep s req).2) req = handleStep s req :=
  ⟨rfl, rfl⟩

/-- C6: with the hardcoded pool (APY 25), amount 1000 over 365 days earns
exactly 250.00. -/
theorem scenario_apy25_one_year :
    (run_staking_simulation eth_pool 1000 365).earnings = 250 := by
  norm_num [run_staking_simulation, eth_pool, round2, roundHalfEven]

/-- C7: no number of handler calls mutates the process state: the pool is
unchanged after any request sequence and every result in the sequence is
computed from the same pool values. -/
theorem handler_preserves_pool (s : ProcState) (reqs : List SimulationRequest) :
    (runAll s reqs).2 = s ∧
    (runAll s reqs).1 = reqs.map (fun req =>
      run_staking_simulation s.pool req.amount_staked req.duration_days) := by
  induction reqs with
  | nil => exact ⟨rfl, rfl⟩
  | cons req rest ih =>
    refine ⟨?_, ?_⟩
    · simpa [runAll, handleStep] using ih.1
    · simp [runAll, handleStep, ih.2]

/-- C8: a duration of 1,000,000 days raises no error: the endpoint returns
a 200 result for every amount, and with amount 1000 the earnings are the
finite value 684931.51. -/
theorem large_duration_finite :
    (∀ a : ℚ, handle_request (toBody { pool_id := 1, amount_staked := a, duration_days := 1000000 }) =
      HttpResponse.ok (run_staking_simulation eth_pool a 1000000)) ∧
    (run_staking_simulation eth_pool 1000 1000000).earnings = 68493151 / 100 := by
  constructor
  · intro a
    rfl
  · norm_num [run_staking_simulation, eth_pool, round2, roundHalfEven]

/-- C9: every successful response carries the hardcoded pool's constants:
pool_id 1, pool_name "ETH Staking Pool", and earnings computed from
apy = 25. -/
theorem response_hardcoded_pool_constants (req : SimulationRequest) :
    (simulate_staking_yield req).pool_id = 1 ∧
    (simulate_staking_yield req).pool_name = "ETH Staking Pool" ∧
    (simulate_staking_yield req).earnings =
      round2 (req.amount_staked * ((25 : ℚ) / 100 / 365) * (req.duration_days : ℚ)) :=
  ⟨rfl, rfl, rfl⟩

/-- C10: with exactly one of amount and duration negative (the other
positive), the endpoint still answers 200 and the delivered earnings are
at most zero — negative earnings are not clamped or rejected. -/
theorem negative_input_nonpositive_earnings (req : SimulationRequest)
    (h : (req.amount_staked < 0 ∧ 0 < req.duration_days) ∨
         (0 < req.amount_staked ∧ req.duration_days < 0)) :
    handle_request (toBody req) = HttpResponse.ok (simulate_staking_yield req) ∧
    (simulate_staking_yield req).earnings ≤ 0 := by
  refine ⟨rfl, ?_⟩
  have hc : (0 : ℚ) < (25 : ℚ) / 100 / 365 := by norm_num
  have key : req.amount_staked * ((25 : ℚ) / 100 / 365) * (req.duration_days : ℚ) ≤ 0 := by
    rcases h with ⟨ha, hd⟩ | ⟨ha, hd⟩
    · have hd' : (0 : ℚ) < (req.duration_days : ℚ) := by exact_mod_cast hd
      nlinarith
    · have hd' : ((req.duration_days : ℚ)) < 0 := by exact_mod_cast hd
      nlinarith
  have hrw : (simulate_staking_yield req).earnings =
      round2 (req.amount_staked * ((25 : ℚ) / 100 / 365) * (req.duration_days : ℚ)) := rfl
  rw [hrw]
  exact round2_nonpos key

/-- Witness for C10 at amount -1000 and duration 10. -/
theorem negative_input_nonpositive_earnings_witness :
    ((({ pool_id := 1, amount_staked := -1000, duration_days := 10 } :
          SimulationRequest).amount_staked < 0 ∧
        (0 : ℤ) < ({ pool_id := 1, amount_staked := -1000, duration_days := 10 } :
          SimulationRequest).duration_days) ∨
      (0 < ({ pool_id := 1, amount_staked := -1000, duration_days := 10 } :
          SimulationRequest).amount_staked ∧
        ({ pool_id := 1, amount_staked := -1000, duration_days := 10 } :
          SimulationRequest).duration_days < 0)) ∧
    (handle_request (toBody { pool_id := 1, amount_staked := -1000, duration_days := 10 }) =
        HttpResponse.ok (simulate_staking_yield
          { pool_id := 1, amount_staked := -1000, duration_days := 10 }) ∧
      (simulate_staking_yield
          { pool_id := 1, amount_staked := -1000, duration_days := 10 }).earnings ≤ 0) :=
  ⟨Or.inl ⟨by norm_num, by norm_num⟩,
    negative_input_nonpositive_earnings
      { pool_id := 1, amount_staked := -1000, duration_days := 10 }
      (Or.inl ⟨by norm_num, by norm_num⟩)⟩

end DefiSim
